import Mathlib

/-!
Verification of the tool/resource registry and dispatch layer of the
`huggies_server_python` server (`src/huggies_server_python/main.py`).

The Python module is shallowly embedded below.  Conventions:
* Python strings are Lean `String`s; the Python runtime string builtins
  (`in`, `lower`, `strip`, `split`, `int`, `startswith`, slicing) are
  modelled by the executable `py*` helpers defined first.
* The knowledge base (`mock_knowledge.json`, loaded into the module-global
  `KNOWLEDGE` list at startup) lives outside the repository source, so every
  definition that reads it takes the record list as an explicit parameter.
* Widget HTML bodies are loaded from asset files outside the source tree
  (`_load_widget_html`); the loader is passed as a parameter
  `load : String → String` mapping a component name to its markup.
* Python floats are modelled as exact rationals (`ℚ`); the values of
  `random.random()` during one request are modelled as a stream
  `rand : Nat → ℚ`.
* A handler that raises is modelled as returning `Except.error msg`, where
  `msg` stands for `str(e)`.
-/

/-! ### Python string builtins -/

/-- Python `needle in hay` substring test on strings. -/
def pyIn (needle hay : String) : Bool :=
  decide (needle.data <:+: hay.data)

/-- ASCII lowercasing of one character.  All strings this server handles are
ASCII, where Python `str.lower` agrees with ASCII lowercasing. -/
def pyLowerChar (c : Char) : Char :=
  if 65 ≤ c.toNat ∧ c.toNat ≤ 90 then Char.ofNat (c.toNat + 32) else c

/-- Python `s.lower()` (ASCII). -/
def pyLower (s : String) : String :=
  ⟨s.data.map pyLowerChar⟩

/-- Python `s.strip()`: drop leading and trailing whitespace. -/
def pyStrip (s : String) : String :=
  ⟨((s.data.dropWhile Char.isWhitespace).reverse.dropWhile
      Char.isWhitespace).reverse⟩

/-- Split a character list at every separator character, keeping empty
chunks (backbone of the two Python split variants used by the source). -/
def splitChunks (p : Char → Bool) : List Char → List (List Char)
  | [] => [[]]
  | c :: cs =>
    if p c then [] :: splitChunks p cs
    else
      match splitChunks p cs with
      | [] => [[c]]
      | l :: ls => (c :: l) :: ls

/-- Python `s.split()` (no separator): split on whitespace runs, dropping
empty pieces. -/
def pySplit (s : String) : List String :=
  ((splitChunks Char.isWhitespace s.data).map
    (fun l => (⟨l⟩ : String))).filter (fun w => w ≠ "")

/-- Python `s.split(sep)` for a one-character separator (the source only
splits on `"-"`): empty pieces are kept and `"".split(sep) = [""]`. -/
def pySplitOnChar (sep : Char) (s : String) : List String :=
  (splitChunks (fun c => c = sep) s.data).map (fun l => (⟨l⟩ : String))

/-- Value of a nonempty all-digit character list, else `none`. -/
def pyParseDigits (cs : List Char) : Option Nat :=
  if cs = [] then none
  else if cs.all Char.isDigit then
    some (cs.foldl (fun n c => 10 * n + (c.toNat - 48)) 0)
  else none

/-- Python `int(s)` on decimal strings: optional surrounding whitespace,
optional sign, at least one digit.  (Digit-group underscores are not
modelled; no input in this development uses them.)  `none` models the
raised `ValueError`. -/
def pyInt (s : String) : Option ℤ :=
  match (pyStrip s).data with
  | '-' :: ds => (pyParseDigits ds).map (fun n => -(n : ℤ))
  | '+' :: ds => (pyParseDigits ds).map (fun n => (n : ℤ))
  | ds => (pyParseDigits ds).map (fun n => (n : ℤ))

/-- Python `s.startswith(p)`. -/
def pyStartsWith (s p : String) : Bool :=
  p.data.isPrefixOf s.data

/-- Python `s[:n]` on strings for nonnegative `n` (code points). -/
def pyTakeStr (s : String) (n : Nat) : String :=
  ⟨s.data.take n⟩

/-- Python `l[:n]` on lists; a negative `n` counts from the end. -/
def pySlice {α : Type} (l : List α) (n : ℤ) : List α :=
  if 0 ≤ n then l.take n.toNat else l.take (l.length - (-n).toNat)

/-- Python `a or b` where `a` is an optional string: `None` and `""` are
falsy. -/
def pyOrStr (a : Option String) (b : String) : String :=
  match a with
  | some s => if s = "" then b else s
  | none => b

/-- Round-half-to-even to an integer (the tie rule of Python `round`). -/
def roundHalfEven (q : ℚ) : ℤ :=
  let f : ℤ := q.floor
  let r : ℚ := q - (f : ℚ)
  if r < 1/2 then f
  else if 1/2 < r then f + 1
  else if f % 2 = 0 then f else f + 1

/-- Python `round(x, n)`, modelled exactly on rationals. -/
def pyRound (x : ℚ) (n : Nat) : ℚ :=
  (roundHalfEven (x * ((10 : ℚ) ^ n)) : ℚ) / ((10 : ℚ) ^ n)

/-! ### Knowledge store and search ranker -/

/-- One entry of the `KNOWLEDGE` list.  The JSON objects are accessed in the
source with `item.get(key, default)`; records are modelled with all fields
present (a missing JSON field corresponds to the default value). -/
structure KnowledgeRecord where
  id : String
  title : String
  question : String
  answer : String
  tags : List String
  source_url : String
  type : String
deriving Repr, DecidableEq, Inhabited

/-- `find_by_id` (main.py:44-49): first record whose `id` equals
`item_id`. -/
def find_by_id (knowledge : List KnowledgeRecord) (item_id : String) :
    Option KnowledgeRecord :=
  knowledge.find? (fun item => item.id == item_id)

/-- The score accumulated for one record inside the loop of `keyword_search`
(main.py:56-68), for the already-lowercased query `q`: `+5` for a title hit,
`+4` for a question hit, `+3` per tag contained in `q`, `+1` per token of
`q` contained in the answer (the loop guard `if w and w in ans` keeps the
redundant nonemptiness test on the token). -/
def recordScore (q : String) (item : KnowledgeRecord) : Nat :=
  (if pyIn q (pyLower item.title) then 5 else 0)
    + (if pyIn q (pyLower item.question) then 4 else 0)
    + 3 * (item.tags.countP (fun tag => pyIn (pyLower tag) q))
    + (pySplit q).countP (fun w => w ≠ "" && pyIn w (pyLower item.answer))

/-- `keyword_search` (main.py:52-73).  The Python loop appends
`(score, item)` pairs with positive score (map + filter below), then sorts
with `hits.sort(key=lambda x: x[0], reverse=True)` — the Python sort is
guaranteed stable, and a stable descending sort by score is `mergeSort`
with the comparator "score of the left is at least score of the right" —
and finally projects the items of the first `top_n` hits. -/
def keyword_search (knowledge : List KnowledgeRecord) (query : String)
    (top_n : Nat := 3) : List KnowledgeRecord :=
  let q := pyLower query
  let hits := (knowledge.map (fun item => (recordScore q item, item))).filter
    (fun h => 0 < h.1)
  ((hits.mergeSort (fun a b => decide (b.1 ≤ a.1))).map (fun h => h.2)).take top_n

/-- Scoring rule exactly as the spec words it (§4.2), for lowercased query
`q`: +5 if `q` is a substring of the lowercased title, +4 if `q` is a
substring of the lowercased question, +3 for each tag whose lowercased form
is a substring of `q`, +1 for each whitespace-delimited token of `q` that is
a substring of the lowercased answer (duplicate tokens counted multiple
times). -/
def specScore (q : String) (r : KnowledgeRecord) : Nat :=
  (if pyIn q (pyLower r.title) then 5 else 0)
    + (if pyIn q (pyLower r.question) then 4 else 0)
    + 3 * (r.tags.countP (fun tag => pyIn (pyLower tag) q))
    + (pySplit q).countP (fun w => pyIn w (pyLower r.answer))

/-- The ranking order of the spec on `(position, (score, record))` tuples:
`a` comes no later than `b` iff `a` scores strictly higher, or the scores
are equal and `a` came first in the original record order. -/
def rankLE (a b : Nat × Nat × KnowledgeRecord) : Bool :=
  decide (b.2.1 < a.2.1) || (decide (a.2.1 = b.2.1) && decide (a.1 ≤ b.1))

/-- The Search Ranker contract as the spec words it: lowercase the query,
score every record, exclude the records scoring 0, order the remainder
highest score first with ties broken by original record order, truncate to
`topN`. -/
def specSearch (knowledge : List KnowledgeRecord) (query : String)
    (topN : Nat) : List KnowledgeRecord :=
  let q := pyLower query
  let scored := (knowledge.map (fun r => (specScore q r, r))).filter
    (fun h => h.1 ≠ 0)
  ((scored.enum.mergeSort rankLE).map (fun h => h.2.2)).take topN

/-! ### Widget catalog and resource resolver -/

/-- `HuggiesWidget` (main.py:22-30). -/
structure HuggiesWidget where
  identifier : String
  title : String
  template_uri : String
  invoking : String
  invoked : String
  html : String
  response_text : String
deriving Repr, DecidableEq, Inhabited

/-- The `widgets` catalog (main.py:94-149). -/
def widgets (load : String → String) : List HuggiesWidget :=
  [ { identifier := "huggies-cards", title := "Show FAQ Cards",
      template_uri := "ui://widget/huggies-cards.html",
      invoking := "Searching FAQs", invoked := "Found FAQ results",
      html := load "huggies-cards", response_text := "Displayed FAQ cards!" },
    { identifier := "huggies-size-calc", title := "Diaper Size Calculator",
      template_uri := "ui://widget/huggies-size-calc.html",
      invoking := "Calculating diaper size", invoked := "Size recommendation ready",
      html := load "huggies-size-calc", response_text := "Calculated diaper size!" },
    { identifier := "huggies-map", title := "Store Locator Map",
      template_uri := "ui://widget/huggies-map.html",
      invoking := "Finding nearby stores", invoked := "Store locations found",
      html := load "huggies-map", response_text := "Displayed store map!" },
    { identifier := "huggies-offers", title := "Coupons & Offers",
      template_uri := "ui://widget/huggies-offers.html",
      invoking := "Loading current offers", invoked := "Offers displayed",
      html := load "huggies-offers", response_text := "Showed available offers!" },
    { identifier := "huggies-names", title := "Baby Name Suggestions",
      template_uri := "ui://widget/huggies-names.html",
      invoking := "Generating name suggestions", invoked := "Name suggestions ready",
      html := load "huggies-names", response_text := "Displayed name suggestions!" },
    { identifier := "huggies-gender", title := "Gender Predictor",
      template_uri := "ui://widget/huggies-gender.html",
      invoking := "Predicting gender", invoked := "Prediction complete",
      html := load "huggies-gender", response_text := "Showed gender prediction!" } ]

def MIME_TYPE : String := "text/html+skybridge"

/-- `WIDGETS_BY_ID` (main.py:154-156).  A dict comprehension over a list
with pairwise-distinct keys is the first-hit lookup on that list. -/
def WIDGETS_BY_ID (load : String → String) (wid : String) :
    Option HuggiesWidget :=
  (widgets load).find? (fun w => w.identifier == wid)

/-- `WIDGETS_BY_URI` (main.py:157-159). -/
def WIDGETS_BY_URI (load : String → String) (uri : String) :
    Option HuggiesWidget :=
  (widgets load).find? (fun w => w.template_uri == uri)

/-- Python `WIDGETS_BY_ID[wid]`.  Total here: every subscript in the source
uses a key present in the catalog, so the `default` branch is
unreachable. -/
def WIDGETS_BY_ID_get (load : String → String) (wid : String) :
    HuggiesWidget :=
  (WIDGETS_BY_ID load wid).getD default

/-- `_tool_meta` (main.py:174-181): the five fixed metadata keys attached
to tools and resources. -/
structure ToolMeta where
  outputTemplate : String
  invoking : String
  invoked : String
  widgetAccessible : Bool
  resultCanProduceWidget : Bool
deriving Repr, DecidableEq

def tool_meta (w : HuggiesWidget) : ToolMeta :=
  { outputTemplate := w.template_uri, invoking := w.invoking,
    invoked := w.invoked, widgetAccessible := true,
    resultCanProduceWidget := true }

/-- `_tool_invocation_meta` (main.py:184-188): the two invocation
labels. -/
structure InvocationMeta where
  invoking : String
  invoked : String
deriving Repr, DecidableEq

def tool_invocation_meta (w : HuggiesWidget) : InvocationMeta :=
  { invoking := w.invoking, invoked := w.invoked }

/-- One `TextResourceContents` entry of a read-resource result
(main.py:321-328). -/
structure TextResourceContents where
  uri : String
  mimeType : String
  text : String
  meta : ToolMeta
deriving Repr, DecidableEq

/-- A `ReadResourceResult`: the contents plus the result-level `_meta`,
which the source sets to `{"error": msg}` on a miss and omits otherwise;
modelled as the optional error message. -/
structure ReadResourceResult where
  contents : List TextResourceContents
  errorMeta : Option String
deriving Repr, DecidableEq

/-- `_handle_read_resource` (main.py:311-330). -/
def handle_read_resource (load : String → String) (uri : String) :
    ReadResourceResult :=
  match WIDGETS_BY_URI load uri with
  | none => { contents := [], errorMeta := some ("Unknown resource: " ++ uri) }
  | some widget =>
      { contents := [{ uri := widget.template_uri, mimeType := MIME_TYPE,
                       text := widget.html, meta := tool_meta widget }],
        errorMeta := none }

/-! ### JSON values and the response envelope -/

/-- JSON-like values for `structuredContent` payloads. -/
inductive JVal where
  | null : JVal
  | jbool : Bool → JVal
  | jstr : String → JVal
  | jnum : ℚ → JVal
  | jarr : List JVal → JVal
  | jobj : List (String × JVal) → JVal

/-- Field lookup on a JSON object. -/
def JVal.get (j : JVal) (k : String) : Option JVal :=
  match j with
  | .jobj fields => (fields.find? (fun f => f.1 == k)).map (fun f => f.2)
  | _ => none

/-- A Python `Optional[str]` value in a JSON position (`None` is null). -/
def jstrOpt : Option String → JVal
  | none => JVal.null
  | some s => JVal.jstr s

/-- `types.CallToolResult` as this server uses it: `content` is the list of
text-block texts (always a single block here), `structuredContent` the
optional JSON object, `isError` defaults to false, and `meta` models `_meta`
restricted to the two invocation labels — the only `_meta` this server
attaches to a tool result. -/
structure CallToolResult where
  content : List String
  structuredContent : Option JVal := none
  isError : Bool := false
  meta : Option InvocationMeta := none

/-- Field of the structured content. -/
def CallToolResult.sget (r : CallToolResult) (k : String) : Option JVal :=
  match r.structuredContent with
  | some j => j.get k
  | none => none

/-- Nested field of the structured content. -/
def CallToolResult.sget2 (r : CallToolResult) (k1 k2 : String) : Option JVal :=
  match r.sget k1 with
  | some j => j.get k2
  | none => none

/-! ### Tool handlers -/

/-- Projection of a record used in the `results` list of `get_faq`
(main.py:367-377). -/
def faqResultJson (m : KnowledgeRecord) : JVal :=
  .jobj [("id", .jstr m.id), ("title", .jstr m.title),
         ("answer", .jstr m.answer), ("source_url", .jstr m.source_url),
         ("type", .jstr m.type), ("tags", .jarr (m.tags.map JVal.jstr))]

/-- One card built by `get_faq` (main.py:385-393). -/
def faqCardJson (m : KnowledgeRecord) : JVal :=
  .jobj [("type", .jstr "card"), ("title", .jstr m.title),
         ("text", .jstr m.answer),
         ("meta", .jobj [("id", .jstr m.id),
                         ("source_url", .jstr m.source_url)])]

/-- The raw JSON object of a record (returned whole by
`get_item_by_id`). -/
def recordJson (m : KnowledgeRecord) : JVal :=
  .jobj [("id", .jstr m.id), ("title", .jstr m.title),
         ("question", .jstr m.question), ("answer", .jstr m.answer),
         ("tags", .jarr (m.tags.map JVal.jstr)),
         ("source_url", .jstr m.source_url), ("type", .jstr m.type)]

/-- `get_faq` (main.py:338-408).  A blank (stripped-empty) query returns the
query-required payload without consulting the store; otherwise the ranked
matches (the `try` around `keyword_search` cannot fault in the pure model),
falling back to the first three records when the ranker finds nothing.  The
summary text uses the first entry of `results`, whose title and answer
fields are those of the first match. -/
def get_faq (load : String → String) (knowledge : List KnowledgeRecord)
    (query : String) : CallToolResult :=
  let widget := WIDGETS_BY_ID_get load "huggies-cards"
  let q := pyStrip query
  if q = "" then
    let text := "Query is required"
    { content := [text],
      structuredContent := some (.jobj
        [("text", .jstr text), ("results", .jarr []),
         ("widget", .jobj [("widget_type", .jstr "cards"),
                           ("cards", .jarr [])])]),
      meta := some (tool_invocation_meta widget) }
  else
    let found := keyword_search knowledge q 3
    let ms := if found = [] then knowledge.take 3 else found
    let text :=
      match ms with
      | [] => "No matching FAQ found for \"" ++ q ++ "\"."
      | m :: _ => m.title ++ ": " ++ m.answer
    { content := [text],
      structuredContent := some (.jobj
        [("text", .jstr text),
         ("results", .jarr (ms.map faqResultJson)),
         ("widget", .jobj [("widget_type", .jstr "cards"),
                           ("cards", .jarr (ms.map faqCardJson))])]),
      meta := some (tool_invocation_meta widget) }

/-- `list_faqs` (main.py:411-425). -/
def list_faqs (load : String → String) (knowledge : List KnowledgeRecord) :
    CallToolResult :=
  let widget := WIDGETS_BY_ID_get load "huggies-cards"
  let items := knowledge.map (fun it => JVal.jobj
    [("id", .jstr it.id), ("title", .jstr it.title),
     ("type", .jstr it.type)])
  let text := toString knowledge.length ++ " FAQs available."
  { content := [text],
    structuredContent := some (.jobj
      [("text", .jstr text), ("results", .jarr items)]),
    meta := some (tool_invocation_meta widget) }

/-- `get_item_by_id` (main.py:428-449); an unknown id is a domain error
envelope, a hit truncates the answer to 300 characters in the summary. -/
def get_item_by_id (load : String → String)
    (knowledge : List KnowledgeRecord) (item_id : String) : CallToolResult :=
  let widget := WIDGETS_BY_ID_get load "huggies-cards"
  match find_by_id knowledge item_id with
  | none =>
    let text := "Item with id=" ++ item_id ++ " not found"
    { content := [text],
      structuredContent := some (.jobj
        [("text", .jstr text), ("error", .jstr text)]),
      isError := true,
      meta := some (tool_invocation_meta widget) }
  | some item =>
    let text := item.title ++ ": " ++ pyTakeStr item.answer 300 ++ "..."
    { content := [text],
      structuredContent := some (.jobj
        [("text", .jstr text), ("item", recordJson item)]),
      meta := some (tool_invocation_meta widget) }

/-- The pounds-per-kilogram float constant of main.py:470, as an exact
decimal. -/
def LB_PER_KG : ℚ := 2.2046226218

/-- The band chain of `diaper_size_calc` (main.py:474-487): six overlapping
bands tried in source order, first match wins, else size 6. -/
def size_for_weight (w : ℚ) : String × String :=
  if w ≤ 10 then ("N (Newborn)", "up to 10 lbs")
  else if 8 ≤ w ∧ w ≤ 14 then ("1", "8–14 lbs")
  else if 12 ≤ w ∧ w ≤ 18 then ("2", "12–18 lbs")
  else if 16 ≤ w ∧ w ≤ 28 then ("3", "16–28 lbs")
  else if 22 ≤ w ∧ w ≤ 37 then ("4", "22–37 lbs")
  else if 27 ≤ w ∧ w ≤ 40 then ("5", "27+ lbs (varies by product)")
  else ("6", "35+ lbs")

/-- First-match selection over an ordered list of bands. -/
def firstBand (w : ℚ) : List ((ℚ → Bool) × String × String) → String × String
  | [] => ("6", "35+ lbs")
  | b :: bs => if b.1 w then b.2 else firstBand w bs

/-- The six overlapping bands in the exact fixed priority order the spec
states (§4.6), with the labels the code renders. -/
def SPEC_BANDS : List ((ℚ → Bool) × String × String) :=
  [ (fun w => decide (w ≤ 10), ("N (Newborn)", "up to 10 lbs")),
    (fun w => decide (8 ≤ w) && decide (w ≤ 14), ("1", "8–14 lbs")),
    (fun w => decide (12 ≤ w) && decide (w ≤ 18), ("2", "12–18 lbs")),
    (fun w => decide (16 ≤ w) && decide (w ≤ 28), ("3", "16–28 lbs")),
    (fun w => decide (22 ≤ w) && decide (w ≤ 37), ("4", "22–37 lbs")),
    (fun w => decide (27 ≤ w) && decide (w ≤ 40), ("5", "27+ lbs (varies by product)")) ]

/-- Band selection as the spec words it: the bands checked in the exact
fixed order with the first matching band winning, otherwise size 6. -/
def specSize (w : ℚ) : String × String :=
  firstBand w SPEC_BANDS

/-- The fixed advice string of main.py:489-492. -/
def SIZE_ADVICE : String :=
  "If you see red marks around the legs, frequent leaks, or difficulty closing tabs, consider sizing up."

/-- `diaper_size_calc` (main.py:452-514).  With neither weight the error
envelope; otherwise pounds win when present and kilograms are converted by
`LB_PER_KG`.  The numeral-to-text rendering of the rounded weight inside
the f-string is abstracted as `toString` on the exact rational. -/
def diaper_size_calc (load : String → String)
    (weight_kg weight_lb : Option ℚ) : CallToolResult :=
  let widget := WIDGETS_BY_ID_get load "huggies-size-calc"
  if weight_kg = none ∧ weight_lb = none then
    let text := "Please provide weight_kg or weight_lb."
    { content := [text],
      structuredContent := some (.jobj
        [("text", .jstr text), ("error", .jstr text)]),
      isError := true,
      meta := some (tool_invocation_meta widget) }
  else
    let w : ℚ :=
      match weight_lb, weight_kg with
      | some lb, _ => lb
      | none, some kg => kg * LB_PER_KG
      | none, none => 0
    let sz := size_for_weight w
    let text := "For approx " ++ toString (pyRound w 2) ++
      " lbs, recommended size: " ++ sz.1 ++ " (" ++ sz.2 ++ "). " ++
      SIZE_ADVICE
    let backend := JVal.jobj
      [("weight_lb", .jnum (pyRound w 2)),
       ("recommended_size", .jstr sz.1),
       ("weight_range_description", .jstr sz.2),
       ("advice", .jstr SIZE_ADVICE)]
    { content := [text],
      structuredContent := some (.jobj
        [("text", .jstr text), ("backend", backend),
         ("widget", .jobj [("widget_type", .jstr "info_card"),
                           ("data", backend)])]),
      meta := some (tool_invocation_meta widget) }

/-- The fixed example retailer list of main.py:526-536
(name, address, distance in miles). -/
def EXAMPLE_RETAILERS : List (String × String × ℚ) :=
  [("Target", "123 Main St", 1.2),
   ("Walmart", "456 Market Ave", 2.1),
   ("Amazon Pickup Point", "789 Commerce Rd", 3.8),
   ("Local Pharmacy", "12 Pharmacy Ln", 0.6),
   ("Costco", "55 Warehouse Dr", 4.5)]

/-- `map_widget` (main.py:517-571).  `rand k` is the k-th value drawn from
`random.random()` during this call (two draws per retailer, latitude then
longitude). -/
def map_widget (load : String → String) (rand : Nat → ℚ)
    (zip_code location : Option String) (limit : ℤ) : CallToolResult :=
  let widget := WIDGETS_BY_ID_get load "huggies-map"
  let base_lat : ℚ := 28.65195
  let base_lon : ℚ := 77.23149
  let results := (pySlice EXAMPLE_RETAILERS limit).enum.map (fun p =>
    let i := p.1
    let r := p.2
    let lat := base_lat + (rand (2 * i) - 1/2) * 0.02 * ((i : ℚ) + 1)
    let lon := base_lon + (rand (2 * i + 1) - 1/2) * 0.02 * ((i : ℚ) + 1)
    JVal.jobj
      [("name", .jstr r.1), ("address", .jstr r.2.1),
       ("zip", .jstr (pyOrStr zip_code "00000")),
       ("distance_miles", .jnum r.2.2),
       ("lat", .jnum (pyRound lat 6)), ("lon", .jnum (pyRound lon 6)),
       ("phone", .jstr "1800-555-0123")])
  let place := pyOrStr zip_code (pyOrStr location "your area")
  let text := "Found " ++ toString results.length ++ " retailers near " ++
    place ++ "."
  { content := [text],
    structuredContent := some (.jobj
      [("text", .jstr text),
       ("backend", .jobj [("results", .jarr results)]),
       ("widget", .jobj [("widget_type", .jstr "map"),
                         ("markers", .jarr results)])]),
    meta := some (tool_invocation_meta widget) }

/-- The fixed offer list of `coupons` (main.py:578-593). -/
def OFFERS_JSON : List JVal :=
  [ .jobj [("id", .jstr "offer-001"),
           ("title", .jstr "Save $2 on Huggies Special Delivery"),
           ("type", .jstr "manufacturer_coupon"),
           ("expires", .jstr "2026-01-31"),
           ("source_url", .jstr "https://www.huggies.com/en-us/offers")],
    .jobj [("id", .jstr "offer-002"),
           ("title", .jstr "Subscribe & Save 10% on monthly diaper delivery"),
           ("type", .jstr "subscribe"),
           ("expires", .null),
           ("source_url", .jstr "https://www.retailer.example/subscribe")] ]

/-- `coupons` (main.py:574-609). -/
def coupons (load : String → String) : CallToolResult :=
  let widget := WIDGETS_BY_ID_get load "huggies-offers"
  let text := toString OFFERS_JSON.length ++ " current offers available."
  { content := [text],
    structuredContent := some (.jobj
      [("text", .jstr text),
       ("backend", .jobj [("offers", .jarr OFFERS_JSON)]),
       ("widget", .jobj [("widget_type", .jstr "offers_list"),
                         ("offers", .jarr OFFERS_JSON)])]),
    meta := some (tool_invocation_meta widget) }

/-- The fixed name list of main.py:618-634. -/
def BASE_NAMES : List String :=
  ["Aria", "Elowen", "Kaia", "Soren", "Zavian", "Lumi", "Aerin", "Mylo",
   "Renley", "Zephyr", "Mira", "Caspian", "Nova", "Orin", "Junia"]

/-- `suggest_names` (main.py:612-653).  The first parameter is called
`pfx` here because its Python name is a reserved word in Lean; `not pfx`
in the filter is Python truthiness, so `None` and `""` both disable
filtering. -/
def suggest_names (load : String → String) (pfx : Option String)
    (count : ℤ) : CallToolResult :=
  let widget := WIDGETS_BY_ID_get load "huggies-names"
  let keep : String → Bool := fun n =>
    match pfx with
    | none => true
    | some p => p == "" || pyStartsWith (pyLower n) (pyLower p)
  let filtered := pySlice (BASE_NAMES.filter keep) count
  let text := "Here are " ++ toString filtered.length ++ " name suggestions."
  let backend := JVal.jobj
    [("names", .jarr (filtered.map JVal.jstr)),
     ("prefix", jstrOpt pfx), ("count", .jnum (count : ℚ))]
  { content := [text],
    structuredContent := some (.jobj
      [("text", .jstr text), ("backend", backend),
       ("widget", .jobj [("widget_type", .jstr "names_list"),
                         ("names", .jarr (filtered.map JVal.jstr))])]),
    meta := some (tool_invocation_meta widget) }

/-- The prediction block of `predict_gender` (main.py:663-669), extracted
as a named function: parity of the day component of the due date;
`if due_date:` is Python truthiness, so `None` and `""` both skip the
parse; the caught `int(...)` failure leaves the prediction unknown. -/
def gender_prediction (due_date : Option String) : String :=
  match due_date with
  | none => "unknown"
  | some d =>
    if d = "" then "unknown"
    else
      match pyInt ((pySplitOnChar '-' d).getLastD "") with
      | some day => if day % 2 = 1 then "boy" else "girl"
      | none => "unknown"

/-- `predict_gender` (main.py:656-690). -/
def predict_gender (load : String → String)
    (due_date conception_date : Option String) : CallToolResult :=
  let widget := WIDGETS_BY_ID_get load "huggies-gender"
  let prediction := gender_prediction due_date
  let text := "Playful prediction: " ++ prediction ++ " (not medical)."
  let backend := JVal.jobj
    [("prediction", .jstr prediction), ("due_date", jstrOpt due_date),
     ("conception_date", jstrOpt conception_date)]
  { content := [text],
    structuredContent := some (.jobj
      [("text", .jstr text), ("backend", backend),
       ("widget", .jobj [("widget_type", .jstr "gender_predictor"),
                         ("prediction", .jstr prediction)])]),
    meta := some (tool_invocation_meta widget) }

/-! ### Tool registry and dispatcher -/

/-- Argument lookup in the `arguments` mapping of a CallTool request. -/
def lookupArg (args : List (String × JVal)) (k : String) : Option JVal :=
  (args.find? (fun a => a.1 == k)).map (fun a => a.2)

/-- Decode an `Optional[str]` argument: absent or null is `None`.  (A value
of another JSON type would flow into the handler raw in Python; the model
restricts arguments to the advertised schema.) -/
def argOptStr (args : List (String × JVal)) (k : String) : Option String :=
  match lookupArg args k with
  | some (.jstr s) => some s
  | _ => none

/-- Decode an `Optional[float]` argument: absent or null is `None`. -/
def argOptNum (args : List (String × JVal)) (k : String) : Option ℚ :=
  match lookupArg args k with
  | some (.jnum q) => some q
  | _ => none

/-- Decode an `int` argument with a default (clients send integral JSON
numbers; the rational is floored to an integer). -/
def argIntD (args : List (String × JVal)) (k : String) (d : ℤ) : ℤ :=
  match lookupArg args k with
  | some (.jnum q) => q.floor
  | _ => d

/-- The registered tool names: the keys of `_TOOL_FUNCTIONS`
(main.py:192-201), all populated at main.py:694-705. -/
def TOOL_NAMES : List String :=
  ["get_faq", "list_faqs", "get_item_by_id", "diaper_size_calc",
   "map_widget", "coupons", "suggest_names", "predict_gender"]

/-- The populated `_TOOL_FUNCTIONS` table.  Each entry decodes the request
arguments as CPython keyword binding would for well-typed requests and
calls the embedded handler; `Except.error` models an exception escaping the
call, in particular the TypeError raised by keyword binding when a required
argument is missing. -/
def TOOL_FUNCTIONS (load : String → String)
    (knowledge : List KnowledgeRecord) (rand : Nat → ℚ) :
    String → Option (List (String × JVal) → Except String CallToolResult) :=
  fun name =>
    if name = "get_faq" then some (fun args =>
      match lookupArg args "query" with
      | some (.jstr q) => .ok (get_faq load knowledge q)
      | some .null => .ok (get_faq load knowledge "")
      | _ => .error "get_faq() missing 1 required positional argument: query")
    else if name = "list_faqs" then some (fun _ => .ok (list_faqs load knowledge))
    else if name = "get_item_by_id" then some (fun args =>
      match lookupArg args "item_id" with
      | some (.jstr i) => .ok (get_item_by_id load knowledge i)
      | _ => .error "get_item_by_id() missing 1 required positional argument: item_id")
    else if name = "diaper_size_calc" then some (fun args =>
      .ok (diaper_size_calc load (argOptNum args "weight_kg")
        (argOptNum args "weight_lb")))
    else if name = "map_widget" then some (fun args =>
      .ok (map_widget load rand (argOptStr args "zip_code")
        (argOptStr args "location") (argIntD args "limit" 5)))
    else if name = "coupons" then some (fun _ => .ok (coupons load))
    else if name = "suggest_names" then some (fun args =>
      .ok (suggest_names load (argOptStr args "prefix")
        (argIntD args "count" 10)))
    else if name = "predict_gender" then some (fun args =>
      .ok (predict_gender load (argOptStr args "due_date")
        (argOptStr args "conception_date")))
    else none

/-- The `tool_to_widget` dict literal, appearing identically in
`_list_tools` (main.py:240-249) and `_call_tool_request`
(main.py:747-756). -/
def tool_to_widget (name : String) : Option String :=
  ([("get_faq", "huggies-cards"), ("list_faqs", "huggies-cards"),
    ("get_item_by_id", "huggies-cards"),
    ("diaper_size_calc", "huggies-size-calc"),
    ("map_widget", "huggies-map"), ("coupons", "huggies-offers"),
    ("suggest_names", "huggies-names"),
    ("predict_gender", "huggies-gender")].find?
    (fun p => p.1 == name)).map (fun p => p.2)

/-- The widget chosen at main.py:757-758 (and identically at main.py:258):
the bound widget of the tool, or `widgets[0]` when the tool has no binding.
(A bound id missing from the catalog would crash Python; it cannot happen
for these two literal maps, and the model lands on the catalog head.) -/
def widget_for_tool (load : String → String) (name : String) :
    HuggiesWidget :=
  match tool_to_widget name with
  | some wid => (WIDGETS_BY_ID load wid).getD ((widgets load).headI)
  | none => (widgets load).headI

/-- `_call_tool_request` (main.py:709-769).  Every handler of this server
returns a `CallToolResult`, so the str-coercion branch at main.py:761-769
is dead code for this table and is not modelled.  The function is total:
an unknown tool and a raising handler both come back as error envelopes. -/
def call_tool_request
    (tools : String → Option (List (String × JVal) → Except String CallToolResult))
    (load : String → String) (name : String)
    (args : List (String × JVal)) : CallToolResult :=
  match tools name with
  | none =>
      { content := ["Unknown tool: " ++ name], isError := true }
  | some tool_func =>
      match tool_func args with
      | .error e =>
          { content := ["Tool execution error: " ++ e], isError := true }
      | .ok result =>
          match result.meta with
          | none =>
              { result with
                meta := some (tool_invocation_meta (widget_for_tool load name)) }
          | some _ => result

/-! ### Schema derivation and ListTools -/

/-- One parameter of a handler signature as `inspect.signature` sees it.
With `from __future__ import annotations` in force (main.py:8) the
annotation object is the literal source string; it is stored in the field
`ann` (its inspect name is reserved here), with `none` for
`inspect.Parameter.empty`.  `hasDefault` records whether the parameter has
a default value. -/
structure PyParam where
  name : String
  ann : Option String
  hasDefault : Bool
deriving Repr, DecidableEq

/-- One property of the derived JSON schema (main.py:221-224). -/
structure PropSchema where
  type : String
  description : String
deriving Repr, DecidableEq

/-- The object schema built by `_build_tool_schema` (main.py:229-234). -/
structure InputSchema where
  type : String
  properties : List (String × PropSchema)
  required : List String
  additionalProperties : Bool
deriving Repr, DecidableEq

/-- The parameter type inferred at main.py:213-219: "number" if the
annotation string contains "int" or "float", else "boolean" if it contains
"bool", else "string"; no annotation gives "string". -/
def paramJsonType (p : PyParam) : String :=
  match p.ann with
  | none => "string"
  | some a =>
    if pyIn "int" a || pyIn "float" a then "number"
    else if pyIn "bool" a then "boolean"
    else "string"

/-- The derivation rule as the spec words it (§4.4): substring match on the
declared type text — containing "int"/"float" gives number, containing
"bool" gives boolean, else string. -/
def specParamJsonType (a : Option String) : String :=
  match a with
  | none => "string"
  | some t =>
    if pyIn "int" t || pyIn "float" t then "number"
    else if pyIn "bool" t then "boolean"
    else "string"

/-- `_build_tool_schema` (main.py:204-234): one property per parameter in
signature order, and the required list collects (in the same loop order)
exactly the parameters without a default. -/
def build_tool_schema (params : List PyParam) : InputSchema :=
  { type := "object",
    properties := params.map (fun p =>
      (p.name, { type := paramJsonType p, description := p.name })),
    required := (params.filter (fun p => !p.hasDefault)).map (fun p => p.name),
    additionalProperties := false }

/-- The signatures of the eight registered handlers, transcribed from the
source (annotation strings exactly as written; `hasDefault` marks `= ...`
defaults). -/
def TOOL_PARAMS (name : String) : List PyParam :=
  if name = "get_faq" then [⟨"query", some "str", false⟩]
  else if name = "list_faqs" then []
  else if name = "get_item_by_id" then [⟨"item_id", some "str", false⟩]
  else if name = "diaper_size_calc" then
    [⟨"weight_kg", some "Optional[float]", true⟩,
     ⟨"weight_lb", some "Optional[float]", true⟩]
  else if name = "map_widget" then
    [⟨"zip_code", some "Optional[str]", true⟩,
     ⟨"location", some "Optional[str]", true⟩,
     ⟨"limit", some "int", true⟩]
  else if name = "coupons" then []
  else if name = "suggest_names" then
    [⟨"prefix", some "Optional[str]", true⟩,
     ⟨"count", some "int", true⟩]
  else if name = "predict_gender" then
    [⟨"due_date", some "Optional[str]", true⟩,
     ⟨"conception_date", some "Optional[str]", true⟩]
  else []

/-- One advertised tool of `_list_tools` (main.py:237-278), restricted to
the protocol fields the claims concern (the docstring-derived title and
description texts are omitted). -/
structure ToolDecl where
  name : String
  inputSchema : InputSchema
  meta : ToolMeta
deriving Repr, DecidableEq

/-- `_list_tools` (main.py:237-278): one entry per populated
`_TOOL_FUNCTIONS` key, carrying the schema derived from the handler
signature and the metadata of the bound widget (the widget selection at
main.py:257-258 is the same computation as at main.py:757-758). -/
def list_tools (load : String → String) : List ToolDecl :=
  TOOL_NAMES.map (fun name =>
    { name := name,
      inputSchema := build_tool_schema (TOOL_PARAMS name),
      meta := tool_meta (widget_for_tool load name) })

/-- A sample knowledge record used to instantiate store-generic theorems on
concrete data. -/
def SAMPLE_RECORD : KnowledgeRecord :=
  { id := "k1", title := "Diapers 101",
    question := "How many diapers do we need",
    answer := "Lots of diapers.", tags := ["diapers"],
    source_url := "https://example.com/faq", type := "faq" }

/-- The ListTools entry of the size-calculator tool, spelled out. -/
def SIZE_CALC_DECL : ToolDecl :=
  { name := "diaper_size_calc",
    inputSchema := build_tool_schema (TOOL_PARAMS "diaper_size_calc"),
    meta := { outputTemplate := "ui://widget/huggies-size-calc.html",
              invoking := "Calculating diaper size",
              invoked := "Size recommendation ready",
              widgetAccessible := true,
              resultCanProduceWidget := true } }

/-! ### Theorems -/

theorem specScore_eq_recordScore (q : String) (r : KnowledgeRecord) :
    specScore q r = recordScore q r := by
  unfold specScore recordScore
  congr 1
  apply List.countP_congr
  intro w hw
  have hne : w ≠ "" := by
    simp only [pySplit, List.mem_filter, decide_eq_true_eq] at hw
    exact hw.2
  simp [hne]

theorem rankLE_eq_enumLE :
    rankLE = List.enumLE (fun a b => decide (b.1 ≤ a.1)) := by
  funext a b
  simp only [rankLE, List.enumLE]
  rcases Nat.lt_trichotomy a.2.1 b.2.1 with h | h | h
  · have h1 : ¬ b.2.1 ≤ a.2.1 := Nat.not_le.mpr h
    have h2 : ¬ b.2.1 < a.2.1 := Nat.not_lt.mpr h.le
    have h3 : a.2.1 ≠ b.2.1 := Nat.ne_of_lt h
    simp [h1, h2, h3]
  · have h1 : b.2.1 ≤ a.2.1 := h.ge
    have h2 : a.2.1 ≤ b.2.1 := h.le
    have h3 : ¬ b.2.1 < a.2.1 := by omega
    simp [h1, h2, h3, h]
  · have h1 : b.2.1 ≤ a.2.1 := h.le
    have h2 : ¬ a.2.1 ≤ b.2.1 := Nat.not_le.mpr h
    simp [h1, h2, h]

theorem stable_desc_sort_enum (l : List (Nat × KnowledgeRecord)) :
    (l.mergeSort (fun a b => decide (b.1 ≤ a.1))).map (fun h => h.2) =
      (l.enum.mergeSort rankLE).map (fun h => h.2.2) := by
  rw [rankLE_eq_enumLE]
  have h := @List.mergeSort_enum (Nat × KnowledgeRecord)
    (fun a b => decide (b.1 ≤ a.1)) l
  rw [← h, List.map_map]
  rfl

theorem filter_ne_zero_eq_filter_pos (l : List (Nat × KnowledgeRecord)) :
    l.filter (fun h => decide (h.1 ≠ 0)) =
      l.filter (fun h => decide (0 < h.1)) := by
  apply List.filter_congr
  intro x _
  simp only [decide_eq_decide]
  exact (Nat.pos_iff_ne_zero).symm

/-- C4: the `keyword_search` of the code coincides with the ranking
contract of the spec (lowercase the query, score each record by the four
weighted clauses, drop the records scoring 0, order highest score first
with ties in original record order, truncate to `topN`), and the per-record
score of the code is exactly the four-clause score of the spec. -/
theorem keyword_search_eq_specSearch (knowledge : List KnowledgeRecord)
    (query : String) (topN : Nat) :
    keyword_search knowledge query topN = specSearch knowledge query topN ∧
      ∀ q r, recordScore q r = specScore q r := by
  constructor
  · simp only [keyword_search, specSearch, specScore_eq_recordScore]
    rw [filter_ne_zero_eq_filter_pos, stable_desc_sort_enum]
  · intro q r; exact (specScore_eq_recordScore q r).symm

/-- C6: a ReadResource for a URI that resolves in the catalog returns the
preloaded markup body of that widget wrapped with the fixed MIME type and
the widget metadata; an unknown URI yields empty contents with an error
indicator in the result metadata (a well-formed result, not a failure —
the model dispatcher is a total function). -/
theorem read_resource_hit_and_miss (load : String → String) (uri : String) :
    (∀ w, WIDGETS_BY_URI load uri = some w →
      handle_read_resource load uri =
        { contents := [{ uri := w.template_uri, mimeType := MIME_TYPE,
                         text := w.html, meta := tool_meta w }],
          errorMeta := none }) ∧
    (WIDGETS_BY_URI load uri = none →
      handle_read_resource load uri =
        { contents := [],
          errorMeta := some ("Unknown resource: " ++ uri) }) := by
  constructor
  · intro w hw
    simp [handle_read_resource, hw]
  · intro hw
    simp [handle_read_resource, hw]

theorem read_resource_hit_and_miss_witness :
    handle_read_resource (fun n => "<html " ++ n ++ ">")
        "ui://widget/huggies-cards.html" =
      { contents := [{ uri := "ui://widget/huggies-cards.html",
                       mimeType := "text/html+skybridge",
                       text := "<html huggies-cards>",
                       meta := { outputTemplate := "ui://widget/huggies-cards.html",
                                 invoking := "Searching FAQs",
                                 invoked := "Found FAQ results",
                                 widgetAccessible := true,
                                 resultCanProduceWidget := true } }],
        errorMeta := none } ∧
    handle_read_resource (fun n => "<html " ++ n ++ ">") "ui://unknown" =
      { contents := [], errorMeta := some "Unknown resource: ui://unknown" } := by
  refine ⟨(read_resource_hit_and_miss (fun n => "<html " ++ n ++ ">")
      "ui://widget/huggies-cards.html").1
      { identifier := "huggies-cards", title := "Show FAQ Cards",
        template_uri := "ui://widget/huggies-cards.html",
        invoking := "Searching FAQs", invoked := "Found FAQ results",
        html := "<html huggies-cards>",
        response_text := "Displayed FAQ cards!" } (by rfl),
    (read_resource_hit_and_miss (fun n => "<html " ++ n ++ ">")
      "ui://unknown").2 (by rfl)⟩

/-- C1 (amended): when a CallTool reaches a handler that returns a result,
invocation metadata is present on the final response — preserved unchanged
when the handler attached it, filled in from the tool-to-widget binding
when the handler omitted it.  The dispatcher-built error envelopes (unknown
tool, handler fault), however, carry no metadata. -/
theorem call_tool_metadata_rules
    (tools : String → Option (List (String × JVal) → Except String CallToolResult))
    (load : String → String) (name : String)
    (args : List (String × JVal)) :
    (∀ f r, tools name = some f → f args = .ok r →
      (r.meta = none →
        call_tool_request tools load name args =
          { r with meta := some (tool_invocation_meta
              (widget_for_tool load name)) }) ∧
      (r.meta ≠ none → call_tool_request tools load name args = r)) ∧
    (tools name = none →
      (call_tool_request tools load name args).meta = none) ∧
    (∀ f e, tools name = some f → f args = .error e →
      (call_tool_request tools load name args).meta = none) := by
  refine ⟨?_, ?_, ?_⟩
  · intro f r hf hr
    constructor
    · intro hm
      simp [call_tool_request, hf, hr, hm]
    · intro hm
      rcases h : r.meta with _ | m
      · exact absurd h hm
      · simp [call_tool_request, hf, hr, h]
  · intro h
    simp [call_tool_request, h]
  · intro f e hf he
    simp [call_tool_request, hf, he]

theorem call_tool_metadata_rules_witness :
    call_tool_request
        (fun _ => some (fun _ => Except.ok { content := ["ok"] }))
        (fun _ => "") "predict_gender" [] =
      { content := ["ok"], structuredContent := none, isError := false,
        meta := some { invoking := "Predicting gender",
                       invoked := "Prediction complete" } } := by
  have h := ((call_tool_metadata_rules
      (fun _ => some (fun _ => Except.ok { content := ["ok"] }))
      (fun _ => "") "predict_gender" []).1
      (fun _ => Except.ok { content := ["ok"] })
      { content := ["ok"] } rfl rfl).1 rfl
  exact h

/-- C1 as stated is false on the code: the unknown-tool error envelope at
the concrete request CallTool("nonexistent-tool", {}) is a CallTool
response (an error envelope) that lacks invocation metadata. -/
theorem error_envelope_lacks_meta_counterexample :
    (call_tool_request (TOOL_FUNCTIONS (fun _ => "") [] (fun _ => 0))
      (fun _ => "") "nonexistent-tool" []).isError = true ∧
    (call_tool_request (TOOL_FUNCTIONS (fun _ => "") [] (fun _ => 0))
      (fun _ => "") "nonexistent-tool" []).meta = none :=
  ⟨rfl, rfl⟩

/-- C2: a CallTool whose name is outside the registered tool set comes back
as a normal error envelope — `isError` true, text naming the unknown tool —
and no exception escapes (the model dispatcher is a total function, every
branch of which returns an envelope). -/
theorem unknown_tool_error (load : String → String)
    (knowledge : List KnowledgeRecord) (rand : Nat → ℚ) (name : String)
    (args : List (String × JVal)) (h : name ∉ TOOL_NAMES) :
    TOOL_FUNCTIONS load knowledge rand name = none ∧
    call_tool_request (TOOL_FUNCTIONS load knowledge rand) load name args =
      { content := ["Unknown tool: " ++ name], structuredContent := none,
        isError := true, meta := none } := by
  simp only [TOOL_NAMES, List.mem_cons, List.not_mem_nil, or_false,
    not_or] at h
  obtain ⟨h1, h2, h3, h4, h5, h6, h7, h8⟩ := h
  have ht : TOOL_FUNCTIONS load knowledge rand name = none := by
    simp [TOOL_FUNCTIONS, h1, h2, h3, h4, h5, h6, h7, h8]
  refine ⟨ht, ?_⟩
  simp [call_tool_request, ht]

theorem unknown_tool_error_witness :
    "nonexistent-tool" ∉ TOOL_NAMES ∧
    call_tool_request (TOOL_FUNCTIONS (fun _ => "") [] (fun _ => 0))
      (fun _ => "") "nonexistent-tool" [] =
      { content := ["Unknown tool: nonexistent-tool"],
        structuredContent := none, isError := true, meta := none } :=
  ⟨by decide, (unknown_tool_error (fun _ => "") [] (fun _ => 0)
    "nonexistent-tool" [] (by decide)).2⟩

/-- C3: when the named tool exists and its handler raises, the dispatcher
catches the fault and returns the error envelope whose text describes the
failure; no raw fault reaches the transport (the model dispatcher is a
total function). -/
theorem handler_fault_envelope
    (tools : String → Option (List (String × JVal) → Except String CallToolResult))
    (load : String → String) (name : String) (args : List (String × JVal))
    (f : List (String × JVal) → Except String CallToolResult) (e : String)
    (hf : tools name = some f) (he : f args = .error e) :
    call_tool_request tools load name args =
      { content := ["Tool execution error: " ++ e],
        structuredContent := none, isError := true, meta := none } := by
  simp [call_tool_request, hf, he]

theorem handler_fault_envelope_witness :
    call_tool_request (TOOL_FUNCTIONS (fun _ => "") [] (fun _ => 0))
      (fun _ => "") "get_faq" [] =
      { content := ["Tool execution error: get_faq() missing 1 required positional argument: query"],
        structuredContent := none, isError := true, meta := none } :=
  handler_fault_envelope (TOOL_FUNCTIONS (fun _ => "") [] (fun _ => 0))
    (fun _ => "") "get_faq" [] _ _ rfl rfl

theorem size_for_weight_eq_specSize (w : ℚ) :
    size_for_weight w = specSize w := by
  simp only [size_for_weight, specSize, SPEC_BANDS, firstBand,
    Bool.and_eq_true, decide_eq_true_eq]

/-- C5 (amended): the size calculator requires at least one weight — with
neither it returns the error envelope; pounds, when present, win; with
kilograms only, the weight is kilograms times 2.2046226218; the pound
weight is matched against the six overlapping bands in the exact fixed
source order with the first matching band winning (the first band labelled
"N (Newborn)" as the code renders it, then "1" … "5", otherwise "6"); and
the backend output carries the size label, the matched range description,
the fixed advice string and the weight rounded to 2 decimal places. -/
theorem diaper_size_calc_spec (load : String → String)
    (weight_kg weight_lb : Option ℚ) :
    (weight_kg = none → weight_lb = none →
      diaper_size_calc load weight_kg weight_lb =
        { content := ["Please provide weight_kg or weight_lb."],
          structuredContent := some (.jobj
            [("text", .jstr "Please provide weight_kg or weight_lb."),
             ("error", .jstr "Please provide weight_kg or weight_lb.")]),
          isError := true,
          meta := some { invoking := "Calculating diaper size",
                         invoked := "Size recommendation ready" } }) ∧
    (∀ kg, weight_kg = some kg → weight_lb = none →
      diaper_size_calc load weight_kg weight_lb =
        diaper_size_calc load none (some (kg * LB_PER_KG))) ∧
    (∀ lb, weight_lb = some lb →
      diaper_size_calc load weight_kg weight_lb =
        diaper_size_calc load none (some lb)) ∧
    (∀ lb, weight_lb = some lb →
      (diaper_size_calc load weight_kg weight_lb).isError = false ∧
      (diaper_size_calc load weight_kg weight_lb).sget2 "backend"
        "recommended_size" = some (.jstr (size_for_weight lb).1) ∧
      (diaper_size_calc load weight_kg weight_lb).sget2 "backend"
        "weight_range_description" = some (.jstr (size_for_weight lb).2) ∧
      (diaper_size_calc load weight_kg weight_lb).sget2 "backend"
        "advice" = some (.jstr SIZE_ADVICE) ∧
      (diaper_size_calc load weight_kg weight_lb).sget2 "backend"
        "weight_lb" = some (.jnum (pyRound lb 2))) ∧
    (∀ w, size_for_weight w = specSize w) := by
  refine ⟨?_, ?_, ?_, ?_, size_for_weight_eq_specSize⟩
  · intro hk hl
    subst hk; subst hl
    rfl
  · intro kg hk hl
    subst hk; subst hl
    rfl
  · intro lb hl
    subst hl
    rcases weight_kg with _ | k <;> rfl
  · intro lb hl
    subst hl
    rcases weight_kg with _ | k <;> exact ⟨rfl, rfl, rfl, rfl, rfl⟩

/-- C5 as stated is false in one rendering detail: at the concrete input
weight_lb = 9 the size label the code emits is "N (Newborn)", not the bare
"N" of the claim (the first band does win, as the label shows). -/
theorem newborn_label_counterexample :
    (diaper_size_calc (fun _ => "") none (some 9)).sget2 "backend"
      "recommended_size" = some (.jstr "N (Newborn)") ∧
    (diaper_size_calc (fun _ => "") none (some 9)).sget2 "backend"
      "recommended_size" ≠ some (.jstr "N") := by
  constructor
  · rfl
  · intro h
    rw [show (diaper_size_calc (fun _ => "") none (some 9)).sget2 "backend"
        "recommended_size" = some (JVal.jstr "N (Newborn)") from rfl] at h
    have hs : "N (Newborn)" = "N" := by
      have h2 := Option.some.inj h
      injection h2
    exact absurd hs (by decide)

theorem diaper_size_calc_spec_witness :
    (diaper_size_calc (fun _ => "") none none).isError = true ∧
    (diaper_size_calc (fun _ => "") none (some 9)).sget2 "backend"
      "recommended_size" = some (.jstr "N (Newborn)") ∧
    (diaper_size_calc (fun _ => "") none (some 13)).sget2 "backend"
      "recommended_size" = some (.jstr "1") ∧
    diaper_size_calc (fun _ => "") (some 4) none =
      diaper_size_calc (fun _ => "") none (some (4 * LB_PER_KG)) := by
  have h0 := (diaper_size_calc_spec (fun _ => "") none none).1 rfl rfl
  have h9 := ((diaper_size_calc_spec (fun _ => "") none (some 9)).2.2.2.1
    9 rfl).2.1
  have h13 := ((diaper_size_calc_spec (fun _ => "") none (some 13)).2.2.2.1
    13 rfl).2.1
  have h4 := (diaper_size_calc_spec (fun _ => "") (some 4) none).2.1 4 rfl rfl
  refine ⟨by rw [h0], ?_, ?_, h4⟩
  · rw [h9]
    rfl
  · rw [h13]
    rfl

/-- C7: a blank (empty or whitespace-only) query short-circuits — the
result is independent of the knowledge store (the ranker is never
consulted), carries the explicit query-required text, and its result set
and card set are empty; a non-blank query returns the ranked records of the
Search Ranker (at most 3), falling back to the first 3 store records in
storage order when the ranker finds nothing. -/
theorem get_faq_blank_and_ranked (load : String → String)
    (knowledge : List KnowledgeRecord) (query : String) :
    (pyStrip query = "" →
      get_faq load knowledge query = get_faq load [] query ∧
      (get_faq load knowledge query).content = ["Query is required"] ∧
      (get_faq load knowledge query).sget "results" = some (.jarr []) ∧
      (get_faq load knowledge query).sget2 "widget" "cards" =
        some (.jarr [])) ∧
    (pyStrip query ≠ "" →
      (get_faq load knowledge query).sget "results" = some (.jarr
        ((if keyword_search knowledge (pyStrip query) 3 = []
          then knowledge.take 3
          else keyword_search knowledge (pyStrip query) 3).map
          faqResultJson)) ∧
      (keyword_search knowledge (pyStrip query) 3).length ≤ 3) := by
  constructor
  · intro h
    refine ⟨?_, ?_, ?_, ?_⟩ <;>
      simp [get_faq, h, CallToolResult.sget, CallToolResult.sget2, JVal.get]
  · intro h
    constructor
    · simp [get_faq, h, CallToolResult.sget, JVal.get]
    · have h3 : ∀ l : List KnowledgeRecord, (l.take 3).length ≤ 3 := by
        intro l
        simp [List.length_take]
      simp only [keyword_search]
      exact h3 _

theorem get_faq_blank_and_ranked_witness :
    (get_faq (fun _ => "") [SAMPLE_RECORD] "   ").content =
      ["Query is required"] ∧
    (get_faq (fun _ => "") [SAMPLE_RECORD] "diapers").sget "results" =
      some (.jarr [faqResultJson SAMPLE_RECORD]) := by
  have hb := (get_faq_blank_and_ranked (fun _ => "") [SAMPLE_RECORD]
    "   ").1 (by decide)
  have hr := (get_faq_blank_and_ranked (fun _ => "") [SAMPLE_RECORD]
    "diapers").2 (by decide)
  refine ⟨hb.2.1, ?_⟩
  have hks : keyword_search [SAMPLE_RECORD] "diapers" 3 = [SAMPLE_RECORD] := by
    show ((([((13 : Nat), SAMPLE_RECORD)]).mergeSort
      (fun a b => decide (b.1 ≤ a.1))).map (fun h => h.2)).take 3 =
      [SAMPLE_RECORD]
    rw [List.mergeSort_singleton]
    rfl
  have h1 := hr.1
  rw [show pyStrip "diapers" = "diapers" from rfl, hks] at h1
  simpa using h1

/-- C8: every tool advertised by ListTools carries the input schema derived
from the handler signature — one property per parameter, typed by the
substring rule of the spec on the declared annotation text ("int"/"float"
means number, "bool" means boolean, else string), and the required list
holds exactly the parameters without a default value. -/
theorem list_tools_schema_rule (load : String → String) :
    ∀ t ∈ list_tools load,
      t.inputSchema = build_tool_schema (TOOL_PARAMS t.name) ∧
      t.inputSchema.properties = (TOOL_PARAMS t.name).map (fun p =>
        (p.name, { type := specParamJsonType p.ann,
                   description := p.name })) ∧
      t.inputSchema.required = ((TOOL_PARAMS t.name).filter
        (fun p => !p.hasDefault)).map (fun p => p.name) ∧
      ∀ p ∈ TOOL_PARAMS t.name,
        (p.name ∈ (build_tool_schema (TOOL_PARAMS t.name)).required ↔
          p.hasDefault = false) := by
  intro t ht
  simp only [list_tools, TOOL_NAMES, List.map_cons, List.map_nil,
    List.mem_cons, List.not_mem_nil, or_false] at ht
  rcases ht with rfl | rfl | rfl | rfl | rfl | rfl | rfl | rfl <;>
    refine ⟨rfl, rfl, rfl, ?_⟩ <;> dsimp only <;> decide

theorem list_tools_schema_rule_witness :
    SIZE_CALC_DECL ∈ list_tools (fun _ => "") ∧
    (build_tool_schema (TOOL_PARAMS "diaper_size_calc")).properties =
      [("weight_kg",
        ({ type := "number", description := "weight_kg" } : PropSchema)),
       ("weight_lb",
        ({ type := "number", description := "weight_lb" } : PropSchema))] ∧
    (build_tool_schema (TOOL_PARAMS "diaper_size_calc")).required = [] := by
  have hm : SIZE_CALC_DECL ∈ list_tools (fun _ => "") := by decide
  have h := list_tools_schema_rule (fun _ => "") _ hm
  exact ⟨hm, h.2.1.trans (by rfl), h.2.2.1.trans (by rfl)⟩

/-- C9 as stated is false on the code: at the concrete CallTool
predict_gender with the unparsable due date "next-spring", the returned
envelope is NOT an error — isError is false and the prediction is the
in-band "unknown". -/
theorem unparsable_due_date_counterexample :
    (call_tool_request (TOOL_FUNCTIONS (fun _ => "") [] (fun _ => 0))
      (fun _ => "") "predict_gender"
      [("due_date", JVal.jstr "next-spring")]).isError = false ∧
    (call_tool_request (TOOL_FUNCTIONS (fun _ => "") [] (fun _ => 0))
      (fun _ => "") "predict_gender"
      [("due_date", JVal.jstr "next-spring")]).sget2 "backend"
      "prediction" = some (.jstr "unknown") :=
  ⟨rfl, rfl⟩

/-- C9 (amended): a CallTool to the gender-prediction tool with a nonempty
due-date string whose day component does not parse as an integer succeeds
as a normal response: the dispatcher returns the handler envelope
unchanged, with isError false, prediction "unknown" and the fixed playful
text; the dispatcher (a total function in the model) does not crash. -/
theorem predict_gender_unparsable_spec (load : String → String)
    (knowledge : List KnowledgeRecord) (rand : Nat → ℚ) (d : String)
    (hne : d ≠ "")
    (hp : pyInt ((pySplitOnChar '-' d).getLastD "") = none) :
    call_tool_request (TOOL_FUNCTIONS load knowledge rand) load
        "predict_gender" [("due_date", JVal.jstr d)] =
      predict_gender load (some d) none ∧
    (predict_gender load (some d) none).isError = false ∧
    (predict_gender load (some d) none).content =
      ["Playful prediction: unknown (not medical)."] ∧
    (predict_gender load (some d) none).sget2 "backend" "prediction" =
      some (.jstr "unknown") := by
  have hg : gender_prediction (some d) = "unknown" := by
    simp only [gender_prediction]
    rw [if_neg hne, hp]
  refine ⟨rfl, rfl, ?_, ?_⟩
  · rw [show (predict_gender load (some d) none).content =
      ["Playful prediction: " ++ gender_prediction (some d) ++
        " (not medical)."] from rfl, hg]
    rfl
  · rw [show (predict_gender load (some d) none).sget2 "backend"
      "prediction" = some (JVal.jstr (gender_prediction (some d)))
      from rfl, hg]

theorem predict_gender_unparsable_spec_witness :
    ("next-spring" ≠ "" ∧
      pyInt ((pySplitOnChar '-' "next-spring").getLastD "") = none) ∧
    (predict_gender (fun _ => "") (some "next-spring") none).content =
      ["Playful prediction: unknown (not medical)."] :=
  ⟨⟨by decide, by decide⟩,
   (predict_gender_unparsable_spec (fun _ => "") [] (fun _ => 0)
     "next-spring" (by decide) (by decide)).2.2.1⟩

/-- C10: for any fixed due date (including absent), the prediction value,
the response text, the error flag and the whole widget payload of
predict_gender are identical for any two conception dates: the conception
date is only echoed back verbatim inside the backend object and never
influences the prediction. -/
theorem conception_date_no_influence (load : String → String)
    (due c1 c2 c : Option String) :
    (predict_gender load due c1).content =
      (predict_gender load due c2).content ∧
    (predict_gender load due c1).isError =
      (predict_gender load due c2).isError ∧
    (predict_gender load due c1).sget "widget" =
      (predict_gender load due c2).sget "widget" ∧
    (predict_gender load due c1).sget2 "backend" "prediction" =
      (predict_gender load due c2).sget2 "backend" "prediction" ∧
    (predict_gender load due c).sget2 "backend" "conception_date" =
      some (jstrOpt c) :=
  ⟨rfl, rfl, rfl, rfl, rfl⟩
